import Mathlib

/-!
Shallow embedding of `src/main/python/data.py` (matsim-berlin survey
normalization): the enumerated vocabulary, the distance/duration
classifiers built on `np.digitize(..., right=True)`, the entity records,
`pint`, and the `srv_to_standard` normalizer.  Numeric raw values are
modelled as rationals, Python `int(x)` as truncation toward zero, and the
pandas frames as lists of records in row order.
-/

/-- The `DistanceGroup` enum, members in declaration order. -/
inductive DistanceGroup where
  | ZERO
  | G_500M
  | G_1KM
  | G_2KM
  | G_3KM
  | G_5KM
  | G_10KM
  | G_25KM
  | G_50KM
  | G_100KM
  | OVER_100KM
  deriving DecidableEq, Repr

/-- `np.asarray(DistanceGroup)`: the members in declaration order. -/
def DistanceGroup.members : List DistanceGroup :=
  [.ZERO, .G_500M, .G_1KM, .G_2KM, .G_3KM, .G_5KM, .G_10KM, .G_25KM,
   .G_50KM, .G_100KM, .OVER_100KM]

/-- The `DurationGroup` enum, members in declaration order. -/
inductive DurationGroup where
  | G_5MIN
  | G_15MIN
  | G_30MIN
  | G_60MIN
  | G_120MIN
  | G_180MIN
  | G_300MIN
  | G_420MIN
  | G_480MIN
  | G_510MIN
  | G_570MIN
  | G_660MIN
  | G_750MIN
  | REST_OF_DAY
  deriving DecidableEq, Repr

/-- `np.asarray(DurationGroup)`: the members in declaration order. -/
def DurationGroup.members : List DurationGroup :=
  [.G_5MIN, .G_15MIN, .G_30MIN, .G_60MIN, .G_120MIN, .G_180MIN, .G_300MIN,
   .G_420MIN, .G_480MIN, .G_510MIN, .G_570MIN, .G_660MIN, .G_750MIN,
   .REST_OF_DAY]

/-- `np.digitize(v, bins, right=True)` for ascending `bins`: the index `i`
with `bins[i-1] < v <= bins[i]`, i.e. the number of bins strictly below
`v` (numpy's leftmost insertion point). -/
def digitizeRight (v : ℚ) : List ℚ → Nat
  | [] => 0
  | b :: bs => (if b < v then 1 else 0) + digitizeRight v bs

/-- The bin edges of `DistanceGroup.cut` (kilometers). -/
def distBins : List ℚ := [0, 1/2, 1, 2, 3, 5, 10, 25, 50, 100]

/-- The bin edges of `DurationGroup.cut` (minutes). -/
def durBins : List ℚ := [5, 15, 30, 60, 120, 180, 300, 420, 480, 510, 570, 660, 750]

/-- `DistanceGroup.cut`: digitize each value against `distBins`
(right-inclusive), overwrite the index with 0 wherever the value is `≤ 0`
(`idx[np.where(values <= 0)] = 0`), then take the member at each index. -/
def DistanceGroup.cut (values : List ℚ) : List DistanceGroup :=
  ((values.zip (values.map (fun v => digitizeRight v distBins))).map
      (fun vi => if vi.1 ≤ 0 then 0 else vi.2)).map
    (fun i => DistanceGroup.members.getD i DistanceGroup.ZERO)

/-- `DurationGroup.cut`: digitize each value against `durBins`
(right-inclusive) and take the member at each index; no zero override. -/
def DurationGroup.cut (values : List ℚ) : List DurationGroup :=
  (values.map (fun v => digitizeRight v durBins)).map
    (fun i => DurationGroup.members.getD i DurationGroup.G_5MIN)

/-- Per-value form of `DistanceGroup.cut`. -/
def DistanceGroup.cut1 (v : ℚ) : DistanceGroup :=
  DistanceGroup.members.getD (if v ≤ 0 then 0 else digitizeRight v distBins)
    DistanceGroup.ZERO

/-- Per-value form of `DurationGroup.cut`. -/
def DurationGroup.cut1 (v : ℚ) : DurationGroup :=
  DurationGroup.members.getD (digitizeRight v durBins) DurationGroup.G_5MIN

lemma distCut_eq_map : ∀ vs : List ℚ, DistanceGroup.cut vs = vs.map DistanceGroup.cut1
  | [] => rfl
  | v :: vs => by
      simpa [DistanceGroup.cut, DistanceGroup.cut1] using distCut_eq_map vs

lemma durCut_eq_map (vs : List ℚ) : DurationGroup.cut vs = vs.map DurationGroup.cut1 := by
  simp [DurationGroup.cut, DurationGroup.cut1, List.map_map]

lemma distCut_length (vs : List ℚ) : (DistanceGroup.cut vs).length = vs.length := by
  rw [distCut_eq_map]; exact List.length_map vs _

lemma durCut_length (vs : List ℚ) : (DurationGroup.cut vs).length = vs.length := by
  rw [durCut_eq_map]; exact List.length_map vs _

lemma digitizeRight_of_forall_not (v : ℚ) :
    ∀ l : List ℚ, (∀ b ∈ l, ¬ b < v) → digitizeRight v l = 0
  | [], _ => rfl
  | b :: bs, h => by
      have hb : ¬ b < v := h b (List.mem_cons_self b bs)
      simp only [digitizeRight, if_neg hb, Nat.zero_add]
      exact digitizeRight_of_forall_not v bs (fun x hx => h x (List.mem_cons_of_mem b hx))

lemma digitizeRight_append (v : ℚ) :
    ∀ l1 l2 : List ℚ, (∀ b ∈ l1, b < v) → (∀ b ∈ l2, ¬ b < v) →
      digitizeRight v (l1 ++ l2) = l1.length
  | [], l2, _, h2 => by
      simpa using digitizeRight_of_forall_not v l2 h2
  | b :: bs, l2, h1, h2 => by
      have hb : b < v := h1 b (List.mem_cons_self b bs)
      have ih := digitizeRight_append v bs l2
        (fun x hx => h1 x (List.mem_cons_of_mem b hx)) h2
      simp only [List.cons_append, digitizeRight, if_pos hb, List.length_cons]
      simp only [List.append_eq] at ih ⊢
      omega

/-- `ParkingPosition` enum. -/
inductive ParkingPosition where
  | PRIVATE
  | PUBLIC
  | DIFFERENT
  | NA
  deriving DecidableEq, Repr

/-- `HouseholdType` enum. -/
inductive HouseholdType where
  | MULTI_W_CHILDREN
  | MULTI_WO_CHILDREN
  | SINGLE
  deriving DecidableEq, Repr

/-- `EconomicStatus` enum. -/
inductive EconomicStatus where
  | VERY_LOW
  | LOW
  | MEDIUM
  | HIGH
  | VERY_HIGH
  | UNKNOWN
  deriving DecidableEq, Repr

/-- `Gender` enum. -/
inductive Gender where
  | M
  | F
  | OTHER
  deriving DecidableEq, Repr

/-- `Employment` enum. -/
inductive Employment where
  | CHILD
  | HOMEMAKER
  | RETIREE
  | UNEMPLOYED
  | SCHOOL
  | STUDENT
  | TRAINEE
  | JOB_FULL_TIME
  | JOB_PART_TIME
  | OTHER
  deriving DecidableEq, Repr

/-- `Availability` enum. -/
inductive Availability where
  | YES
  | NO
  | UNKNOWN
  deriving DecidableEq, Repr

/-- `Purpose` enum. -/
inductive Purpose where
  | WORK
  | WORK_BUSINESS
  | EDU_PRIMARY
  | EDU_HIGHER
  | EDU_OTHER
  | SHOP_FOOD
  | SHOP_OTHER
  | PERSONAL_BUSINESS
  | TRANSPORT
  | LEISURE
  | DINING
  | OUTSIDE_RECREATION
  | VISIT
  | HOME
  | OTHER
  deriving DecidableEq, Repr

/-- `TripMode` enum. -/
inductive TripMode where
  | WALK
  | BIKE
  | CAR
  | RIDE
  | PT
  | OTHER
  deriving DecidableEq, Repr

/-- `SourceDestinationGroup` enum. -/
inductive SourceDestinationGroup where
  | HOME_WORK
  | HOME_CHILDCARE
  | HOME_EDU
  | HOME_BUSINESS
  | HOME_SHOP
  | HOME_LEISURE
  | HOME_OTHER
  | WORK_HOME
  | CHILDCARE_HOME
  | EDU_HOME
  | BUSINESS_HOME
  | SHOP_HOME
  | LEISURE_HOME
  | OTHER_HOME
  | OTHER_WORK
  | WORK_OTHER
  | OTHER_OTHER
  | UNKNOWN
  deriving DecidableEq, Repr

/-- `@dataclass Household`: universal household attributes. -/
structure Household where
  hh_id : String
  h_weight : ℚ
  n_persons : Int
  n_cars : Int
  n_bikes : Int
  n_other_vehicles : Int
  car_parking : ParkingPosition
  economic_status : EconomicStatus
  type : HouseholdType
  location : String
  regionType : Int
  deriving DecidableEq, Repr

/-- `@dataclass Person`: universal person attributes. -/
structure Person where
  p_id : String
  p_weight : ℚ
  hh : String
  age : Int
  gender : Gender
  restricted_mobility : Bool
  employment : Employment
  driving_license : Availability
  car_avail : Availability
  bike_avail : Availability
  pt_abo_avail : Availability
  mobile_on_day : Bool
  present_on_day : Bool
  deriving DecidableEq, Repr

/-- `@dataclass Trip`: universal trip attributes. -/
structure Trip where
  t_id : String
  t_weight : ℚ
  p_id : String
  n : Int
  day_of_week : Int
  departure : Int
  duration : Int
  gis_length : ℚ
  main_mode : TripMode
  purpose : Purpose
  sd_group : SourceDestinationGroup
  valid : Bool
  deriving DecidableEq, Repr

/-- Python `int(q)` on a numeric value: truncation toward zero. -/
def pyInt (q : ℚ) : Int := if 0 ≤ q then ⌊q⌋ else ⌈q⌉

/-- `pint(x) = max(0, int(x))` on a numeric input. -/
def pint (x : ℚ) : Int := max 0 (pyInt x)

/-- A raw Python scalar reaching `pint`: a number or a string. -/
inductive RawValue where
  | num (q : ℚ)
  | str (s : String)
  deriving DecidableEq, Repr

/-- The error raised by Python `int(x)` on a non-numeric string. -/
inductive PyErr where
  | valueError
  deriving DecidableEq, Repr

/-- Decimal digit string to number, `none` when any character is not a
digit or the string is empty. -/
def digitsNat (cs : List Char) : Option Nat :=
  if cs ≠ [] ∧ cs.all Char.isDigit then
    some (cs.foldl (fun a c => a * 10 + (c.toNat - 48)) 0)
  else none

/-- Python `int` applied to a string: an optional sign followed by
decimal digits, anything else raising `ValueError`. -/
def pyStrToInt (s : String) : Option Int :=
  match s.data with
  | '-' :: cs => (digitsNat cs).map (fun n => -(n : Int))
  | '+' :: cs => (digitsNat cs).map (fun n => (n : Int))
  | cs => (digitsNat cs).map (fun n => (n : Int))

/-- Python `int(x)` over the full scalar domain: truncates numbers,
parses integer strings, raises on anything else. -/
def pyIntV : RawValue → Except PyErr Int
  | .num q => .ok (pyInt q)
  | .str s =>
      match pyStrToInt s with
      | some n => .ok n
      | none => .error .valueError

/-- `pint(x) = max(0, int(x))` over the full scalar domain: the `int`
conversion can raise. -/
def pintV (x : RawValue) : Except PyErr Int :=
  (pyIntV x).map (fun n => max 0 n)

/-- A raw SrV person row: the fields `srv_to_standard` reads. -/
structure RawPerson where
  HHNR : ℚ
  PNR : ℚ
  GEWICHT_P : ℚ
  V_ALTER : ℚ
  V_GESCHLECHT : ℚ
  V_EINSCHR_NEIN : ℚ
  V_ERW : ℚ
  V_FUEHR_PKW : ℚ
  V_PKW_VERFUEG : ℚ
  V_RAD_VERFUEG : ℚ
  V_ERAD_VERFUEG : ℚ
  V_FK_VERFUEG : ℚ
  V_WOHNUNG : ℚ
  V_WOHNORT : ℚ
  deriving DecidableEq, Repr

/-- A raw SrV household row: the fields `srv_to_standard` reads. -/
structure RawHousehold where
  HHNR : ℚ
  GEWICHT_HH : ℚ
  V_ANZ_PERS : ℚ
  V_ANZ_PKW_PRIV : ℚ
  V_ANZ_PKW_DIENST : ℚ
  V_ANZ_RAD : ℚ
  V_ANZ_ERAD : ℚ
  V_ANZ_MOT125 : ℚ
  V_ANZ_MOPMOT : ℚ
  V_ANZ_SONST : ℚ
  V_STELLPL1 : ℚ
  V_EINK : ℚ
  E_HHTYP : ℚ
  ST_CODE_NAME : String
  deriving DecidableEq, Repr

/-- A raw SrV trip row: the fields `srv_to_standard` reads. -/
structure RawTrip where
  HHNR : ℚ
  PNR : ℚ
  WNR : ℚ
  GEWICHT_W : ℚ
  STICHTAG_WTAG : ℚ
  E_BEGINN : ℚ
  E_DAUER : ℚ
  GIS_LAENGE : ℚ
  E_HVM : ℚ
  V_ZWECK : ℚ
  E_QZG_17 : ℚ
  E_WEG_GUELTIG : ℚ
  deriving DecidableEq, Repr

/-- The `SrV2018` code translator, imported by `srv_to_standard` from the
external `converter` module (not part of this repository slice).  Its
functions are kept abstract: the normalizer claims depend only on how
`srv_to_standard` calls them. -/
structure SrV2018 where
  gender : ℚ → Gender
  employment : ℚ → Employment
  yes_no : ℚ → Availability
  veh_avail : ℚ → Availability
  parking_position : ℚ → ParkingPosition
  economic_status : ℚ → List Person → EconomicStatus
  household_type : ℚ → HouseholdType
  trip_mode : ℚ → TripMode
  trip_purpose : ℚ → Purpose
  sd_group : Int → SourceDestinationGroup

/-- One `Person(...)` construction from the person loop of
`srv_to_standard`. -/
def srvPerson (T : SrV2018) (p : RawPerson) : Person :=
  { p_id := toString (pyInt p.HHNR) ++ "_" ++ toString (pyInt p.PNR)
    p_weight := p.GEWICHT_P
    hh := toString (pyInt p.HHNR)
    age := pyInt p.V_ALTER
    gender := T.gender p.V_GESCHLECHT
    restricted_mobility := if p.V_EINSCHR_NEIN ≠ 0 then false else true
    employment := T.employment p.V_ERW
    driving_license := T.yes_no p.V_FUEHR_PKW
    car_avail := T.veh_avail p.V_PKW_VERFUEG
    bike_avail :=
      if T.veh_avail p.V_RAD_VERFUEG = Availability.YES ∨
          T.veh_avail p.V_ERAD_VERFUEG = Availability.YES
      then Availability.YES else T.veh_avail p.V_RAD_VERFUEG
    pt_abo_avail := T.veh_avail p.V_FK_VERFUEG
    mobile_on_day := decide (p.V_WOHNUNG = 1)
    present_on_day := decide (p.V_WOHNORT = 1) }

/-- One `Household(...)` construction from the household loop of
`srv_to_standard`; `persons` is the full standardized person collection
`ps`, and `economic_status` receives the sub-frame `ps[ps.hh == hh_id]`. -/
def srvHousehold (T : SrV2018) (persons : List Person) (h : RawHousehold) : Household :=
  { hh_id := toString (pyInt h.HHNR)
    h_weight := h.GEWICHT_HH
    n_persons := pint h.V_ANZ_PERS
    n_cars := pint (h.V_ANZ_PKW_PRIV + h.V_ANZ_PKW_DIENST)
    n_bikes := pint (h.V_ANZ_RAD + h.V_ANZ_ERAD)
    n_other_vehicles := pint (h.V_ANZ_MOT125 + h.V_ANZ_MOPMOT + h.V_ANZ_SONST)
    car_parking := T.parking_position h.V_STELLPL1
    economic_status := T.economic_status h.V_EINK
      (persons.filter (fun q => q.hh == toString (pyInt h.HHNR)))
    type := T.household_type h.E_HHTYP
    location := h.ST_CODE_NAME
    regionType := 0 }

/-- One `Trip(...)` construction from the trip loop of `srv_to_standard`. -/
def srvTrip (T : SrV2018) (t : RawTrip) : Trip :=
  { t_id := toString (pyInt t.HHNR) ++ "_" ++ toString (pyInt t.PNR) ++ "_" ++
      toString (pyInt t.WNR)
    t_weight := t.GEWICHT_W
    p_id := toString (pyInt t.HHNR) ++ "_" ++ toString (pyInt t.PNR)
    n := pyInt t.WNR
    day_of_week := pyInt t.STICHTAG_WTAG
    departure := pyInt t.E_BEGINN
    duration := pyInt t.E_DAUER
    gis_length := t.GIS_LAENGE
    main_mode := T.trip_mode t.E_HVM
    purpose := T.trip_purpose t.V_ZWECK
    sd_group := T.sd_group (pyInt t.E_QZG_17)
    valid := decide (t.E_WEG_GUELTIG ≠ 0) }

/-- `srv_to_standard`: persons first, then households (whose economic
status sees the person collection filtered by household id), then trips.
The three pandas frames indexed by id are modelled as lists in row order;
duplicate ids are kept, as `set_index` does not verify uniqueness. -/
def srv_to_standard (T : SrV2018)
    (data : List RawHousehold × List RawPerson × List RawTrip) :
    List Household × List Person × List Trip :=
  (data.1.map (srvHousehold T (data.2.1.map (srvPerson T))),
   data.2.1.map (srvPerson T),
   data.2.2.map (srvTrip T))

/-- A concrete translator with constant fallback outputs, for evaluating
the normalizer on closed inputs. -/
def constT : SrV2018 :=
  { gender := fun _ => Gender.OTHER
    employment := fun _ => Employment.OTHER
    yes_no := fun _ => Availability.UNKNOWN
    veh_avail := fun _ => Availability.UNKNOWN
    parking_position := fun _ => ParkingPosition.NA
    economic_status := fun _ _ => EconomicStatus.UNKNOWN
    household_type := fun _ => HouseholdType.SINGLE
    trip_mode := fun _ => TripMode.OTHER
    trip_purpose := fun _ => Purpose.OTHER
    sd_group := fun _ => SourceDestinationGroup.UNKNOWN }

/-- A concrete translator whose vehicle-availability translation is
always YES. -/
def yesT : SrV2018 := { constT with veh_avail := fun _ => Availability.YES }

/-- A concrete raw household row with `HHNR = 1`. -/
def rawHH1 : RawHousehold :=
  { HHNR := 1, GEWICHT_HH := 1, V_ANZ_PERS := 2, V_ANZ_PKW_PRIV := 1,
    V_ANZ_PKW_DIENST := 0, V_ANZ_RAD := 1, V_ANZ_ERAD := 0,
    V_ANZ_MOT125 := 0, V_ANZ_MOPMOT := 0, V_ANZ_SONST := 0,
    V_STELLPL1 := 1, V_EINK := 3, E_HHTYP := 1, ST_CODE_NAME := "Berlin" }

/-- A concrete raw person row with `HHNR = 1`, `PNR = 1`. -/
def rawP1 : RawPerson :=
  { HHNR := 1, PNR := 1, GEWICHT_P := 1, V_ALTER := 30, V_GESCHLECHT := 1,
    V_EINSCHR_NEIN := 1, V_ERW := 1, V_FUEHR_PKW := 1, V_PKW_VERFUEG := 1,
    V_RAD_VERFUEG := 1, V_ERAD_VERFUEG := 1, V_FK_VERFUEG := 1,
    V_WOHNUNG := 1, V_WOHNORT := 1 }

/-- A concrete raw person row with `HHNR = 5`, a household id that no
household row carries. -/
def rawP5 : RawPerson := { rawP1 with HHNR := 5 }

/-- A concrete raw trip row with `HHNR = 1`, `PNR = 1`, `WNR = 1`. -/
def rawT1 : RawTrip :=
  { HHNR := 1, PNR := 1, WNR := 1, GEWICHT_W := 1, STICHTAG_WTAG := 1,
    E_BEGINN := 480, E_DAUER := 30, GIS_LAENGE := 5/2, E_HVM := 1,
    V_ZWECK := 1, E_QZG_17 := 1, E_WEG_GUELTIG := 1 }

/-- C1: every value `v ≤ 0` in the input sequence is assigned the ZERO
label by `DistanceGroup.cut`, at its own position, whatever the rest of
the sequence holds. -/
theorem C1_distance_zero_forced (vs : List ℚ) (i : Nat) (hi : i < vs.length)
    (hv : vs.get ⟨i, hi⟩ ≤ 0) (hj : i < (DistanceGroup.cut vs).length) :
    (DistanceGroup.cut vs).get ⟨i, hj⟩ = DistanceGroup.ZERO := by
  rw [List.get_of_eq (distCut_eq_map vs)]
  simp only [List.get_eq_getElem, List.getElem_map]
  have hv2 : vs[i] ≤ 0 := by simpa [List.get_eq_getElem] using hv
  unfold DistanceGroup.cut1
  rw [if_pos hv2]
  rfl

/-- Witness for C1 at the sequence `[-2, 7]`, index 0. -/
theorem C1_distance_zero_forced_witness :
    (DistanceGroup.cut [(-2 : ℚ), 7]).get ⟨0, by decide⟩ = DistanceGroup.ZERO :=
  C1_distance_zero_forced [(-2 : ℚ), 7] 0 (by decide) (by decide) (by decide)

/-- C3: `pint` clamps negative numbers to 0, truncates positive
non-integers downward, and on the non-numeric string "abc" the underlying
`int(x)` conversion raises instead of yielding 0. -/
theorem C3_pint_coercion :
    pintV (RawValue.num (-5)) = Except.ok 0 ∧
    pintV (RawValue.num (37/10)) = Except.ok 3 ∧
    pintV (RawValue.str "abc") = Except.error PyErr.valueError := by
  refine ⟨?_, ?_, rfl⟩
  · simp only [pintV, pyIntV, pyInt, Except.map]
    rw [if_neg (by norm_num)]
    have hc : ⌈(-5 : ℚ)⌉ = -5 := by
      rw [show ((-5 : ℚ)) = ((-5 : ℤ) : ℚ) by norm_num, Int.ceil_intCast]
    rw [hc]
    norm_num
  · simp only [pintV, pyIntV, pyInt, Except.map]
    rw [if_pos (by norm_num)]
    have hf : ⌊(37 / 10 : ℚ)⌋ = 3 := by norm_num
    rw [hf]
    norm_num

/-- C7: batch classification equals independent per-value classification,
for both distance and duration groups. -/
theorem C7_batch_pointwise :
    (∀ (vs : List ℚ) (i : Nat) (hi : i < vs.length)
        (hj : i < (DistanceGroup.cut vs).length)
        (h0 : 0 < (DistanceGroup.cut [vs.get ⟨i, hi⟩]).length),
        (DistanceGroup.cut vs).get ⟨i, hj⟩ =
          (DistanceGroup.cut [vs.get ⟨i, hi⟩]).get ⟨0, h0⟩) ∧
    (∀ (vs : List ℚ) (i : Nat) (hi : i < vs.length)
        (hj : i < (DurationGroup.cut vs).length)
        (h0 : 0 < (DurationGroup.cut [vs.get ⟨i, hi⟩]).length),
        (DurationGroup.cut vs).get ⟨i, hj⟩ =
          (DurationGroup.cut [vs.get ⟨i, hi⟩]).get ⟨0, h0⟩) := by
  constructor
  · intro vs i hi hj h0
    rw [List.get_of_eq (distCut_eq_map vs),
      List.get_of_eq (distCut_eq_map [vs.get ⟨i, hi⟩])]
    simp [List.get_eq_getElem, List.getElem_map]
  · intro vs i hi hj h0
    rw [List.get_of_eq (durCut_eq_map vs),
      List.get_of_eq (durCut_eq_map [vs.get ⟨i, hi⟩])]
    simp [List.get_eq_getElem, List.getElem_map]

/-- Witness for C7 at the sequence `[7, 1/4]`, index 1. -/
theorem C7_batch_pointwise_witness :
    (DistanceGroup.cut [(7 : ℚ), 1/4]).get ⟨1, by decide⟩ =
      (DistanceGroup.cut [([(7 : ℚ), 1/4].get ⟨1, by decide⟩)]).get ⟨0, by decide⟩ :=
  C7_batch_pointwise.1 [(7 : ℚ), 1/4] 1 (by decide) (by decide) (by decide)

lemma cut_single (v : ℚ) (hpos : 0 < v) (k : Nat) (hk : digitizeRight v distBins = k) :
    DistanceGroup.cut [v] = [DistanceGroup.members.getD k DistanceGroup.ZERO] := by
  rw [distCut_eq_map]
  simp only [List.map_cons, List.map_nil, DistanceGroup.cut1, hk, if_neg (not_le.mpr hpos)]

lemma durCut_single (v : ℚ) (k : Nat) (hk : digitizeRight v durBins = k) :
    DurationGroup.cut [v] = [DurationGroup.members.getD k DurationGroup.G_5MIN] := by
  rw [durCut_eq_map]
  simp only [List.map_cons, List.map_nil, DurationGroup.cut1, hk]

lemma digitize_dist (v : ℚ) (l1 l2 : List ℚ) (hsplit : l1 ++ l2 = distBins)
    (h1 : ∀ b ∈ l1, b < v) (h2 : ∀ b ∈ l2, ¬ b < v) :
    digitizeRight v distBins = l1.length := by
  rw [← hsplit]; exact digitizeRight_append v l1 l2 h1 h2

/-- C2: bucket membership is inclusive on the upper edge — for
`boundary[i-1] < v ≤ boundary[i]` the result is `label[i]`, values above
the last boundary take the overflow label, and the concrete spec examples
hold for both classifiers. -/
theorem C2_upper_inclusive_buckets :
    (∀ (i : Nat) (v : ℚ), 1 ≤ i → i ≤ 9 →
        distBins.getD (i - 1) 0 < v → v ≤ distBins.getD i 0 →
        DistanceGroup.cut [v] = [DistanceGroup.members.getD i DistanceGroup.ZERO]) ∧
    (∀ v : ℚ, 100 < v → DistanceGroup.cut [v] = [DistanceGroup.OVER_100KM]) ∧
    DistanceGroup.cut [1/2] = [DistanceGroup.G_500M] ∧
    DistanceGroup.cut [51/100] = [DistanceGroup.G_1KM] ∧
    DistanceGroup.cut [150] = [DistanceGroup.OVER_100KM] ∧
    DurationGroup.cut [5] = [DurationGroup.G_5MIN] ∧
    DurationGroup.cut [50001/10000] = [DurationGroup.G_15MIN] ∧
    DurationGroup.cut [1000] = [DurationGroup.REST_OF_DAY] := by
  refine ⟨?_, ?_, ?_, ?_, ?_, ?_, ?_, ?_⟩
  · intro i v hi1 hi9 hlo hhi
    interval_cases i
    · have ha : (0 : ℚ) < v := hlo
      have hb : v ≤ (1/2 : ℚ) := hhi
      exact cut_single v (by linarith) 1
        (digitize_dist v [0] [1/2, 1, 2, 3, 5, 10, 25, 50, 100] rfl
          (by intro b hbm; fin_cases hbm; linarith)
          (by intro b hbm; fin_cases hbm <;> rw [not_lt] <;> linarith))
    · have ha : (1/2 : ℚ) < v := hlo
      have hb : v ≤ (1 : ℚ) := hhi
      exact cut_single v (by linarith) 2
        (digitize_dist v [0, 1/2] [1, 2, 3, 5, 10, 25, 50, 100] rfl
          (by intro b hbm; fin_cases hbm <;> linarith)
          (by intro b hbm; fin_cases hbm <;> rw [not_lt] <;> linarith))
    · have ha : (1 : ℚ) < v := hlo
      have hb : v ≤ (2 : ℚ) := hhi
      exact cut_single v (by linarith) 3
        (digitize_dist v [0, 1/2, 1] [2, 3, 5, 10, 25, 50, 100] rfl
          (by intro b hbm; fin_cases hbm <;> linarith)
          (by intro b hbm; fin_cases hbm <;> rw [not_lt] <;> linarith))
    · have ha : (2 : ℚ) < v := hlo
      have hb : v ≤ (3 : ℚ) := hhi
      exact cut_single v (by linarith) 4
        (digitize_dist v [0, 1/2, 1, 2] [3, 5, 10, 25, 50, 100] rfl
          (by intro b hbm; fin_cases hbm <;> linarith)
          (by intro b hbm; fin_cases hbm <;> rw [not_lt] <;> linarith))
    · have ha : (3 : ℚ) < v := hlo
      have hb : v ≤ (5 : ℚ) := hhi
      exact cut_single v (by linarith) 5
        (digitize_dist v [0, 1/2, 1, 2, 3] [5, 10, 25, 50, 100] rfl
          (by intro b hbm; fin_cases hbm <;> linarith)
          (by intro b hbm; fin_cases hbm <;> rw [not_lt] <;> linarith))
    · have ha : (5 : ℚ) < v := hlo
      have hb : v ≤ (10 : ℚ) := hhi
      exact cut_single v (by linarith) 6
        (digitize_dist v [0, 1/2, 1, 2, 3, 5] [10, 25, 50, 100] rfl
          (by intro b hbm; fin_cases hbm <;> linarith)
          (by intro b hbm; fin_cases hbm <;> rw [not_lt] <;> linarith))
    · have ha : (10 : ℚ) < v := hlo
      have hb : v ≤ (25 : ℚ) := hhi
      exact cut_single v (by linarith) 7
        (digitize_dist v [0, 1/2, 1, 2, 3, 5, 10] [25, 50, 100] rfl
          (by intro b hbm; fin_cases hbm <;> linarith)
          (by intro b hbm; fin_cases hbm <;> rw [not_lt] <;> linarith))
    · have ha : (25 : ℚ) < v := hlo
      have hb : v ≤ (50 : ℚ) := hhi
      exact cut_single v (by linarith) 8
        (digitize_dist v [0, 1/2, 1, 2, 3, 5, 10, 25] [50, 100] rfl
          (by intro b hbm; fin_cases hbm <;> linarith)
          (by intro b hbm; fin_cases hbm <;> rw [not_lt] <;> linarith))
    · have ha : (50 : ℚ) < v := hlo
      have hb : v ≤ (100 : ℚ) := hhi
      exact cut_single v (by linarith) 9
        (digitize_dist v [0, 1/2, 1, 2, 3, 5, 10, 25, 50] [100] rfl
          (by intro b hbm; fin_cases hbm <;> linarith)
          (by intro b hbm; fin_cases hbm; rw [not_lt]; linarith))
  · intro v hv
    have hd : digitizeRight v distBins = 10 :=
      (digitize_dist v [0, 1/2, 1, 2, 3, 5, 10, 25, 50, 100] [] rfl
        (by intro b hbm; fin_cases hbm <;> linarith)
        (by intro b hbm; simp at hbm)).trans rfl
    exact cut_single v (by linarith) 10 hd
  · exact cut_single (1/2) (by norm_num) 1 (by norm_num [digitizeRight, distBins])
  · exact cut_single (51/100) (by norm_num) 2 (by norm_num [digitizeRight, distBins])
  · exact cut_single 150 (by norm_num) 10 (by norm_num [digitizeRight, distBins])
  · exact durCut_single 5 0 (by norm_num [digitizeRight, durBins])
  · exact durCut_single (50001/10000) 1 (by norm_num [digitizeRight, durBins])
  · exact durCut_single 1000 13 (by norm_num [digitizeRight, durBins])

/-- Witness for C2: bucket 2 at `v = 3/4`, and overflow at `v = 200`. -/
theorem C2_upper_inclusive_buckets_witness :
    DistanceGroup.cut [(3/4 : ℚ)] = [DistanceGroup.members.getD 2 DistanceGroup.ZERO] ∧
    DistanceGroup.cut [(200 : ℚ)] = [DistanceGroup.OVER_100KM] :=
  ⟨C2_upper_inclusive_buckets.1 2 (3/4) (by norm_num) (by norm_num)
      (by norm_num [distBins]) (by norm_num [distBins]),
   C2_upper_inclusive_buckets.2.1 200 (by norm_num)⟩

/-- C10: `DurationGroup.cut` has no zero bucket: every value `≤ 5`,
zero and negatives included, lands in the first bucket G_5MIN. -/
theorem C10_duration_no_zero_bucket (v : ℚ) (h : v ≤ 5) :
    DurationGroup.cut [v] = [DurationGroup.G_5MIN] := by
  rw [durCut_eq_map]
  have hd : digitizeRight v durBins = 0 := by
    refine digitizeRight_of_forall_not v durBins ?_
    intro b hb
    fin_cases hb <;> rw [not_lt] <;> linarith
  simp only [List.map_cons, List.map_nil, DurationGroup.cut1, hd]
  rfl

/-- Witness for C10 at `v = -3`. -/
theorem C10_duration_no_zero_bucket_witness :
    DurationGroup.cut [(-3 : ℚ)] = [DurationGroup.G_5MIN] :=
  C10_duration_no_zero_bucket (-3) (by norm_num)

/-- C4 counterexample: with all three tables nonempty, two identical raw
household rows share the derived identifier, yet `srv_to_standard`
returns normally with both records in the household collection — no
duplicate-identifier error exists in the code (`set_index` does not
verify uniqueness). -/
theorem C4_counterexample_duplicate_ids_returned :
    (srv_to_standard constT ([rawHH1, rawHH1], [rawP1], [rawT1])).1.map Household.hh_id =
      [toString (pyInt rawHH1.HHNR), toString (pyInt rawHH1.HHNR)] ∧
    (srv_to_standard constT ([rawHH1, rawHH1], [rawP1], [rawT1])).1.length = 2 :=
  ⟨rfl, rfl⟩

/-- C4 amended: identifier collisions are not detected; the run always
returns one output record per raw row, duplicate derived identifiers
included, and household ids are exactly `str(int(HHNR))` row by row. -/
theorem C4_amended_rows_retained (T : SrV2018)
    (hh : List RawHousehold) (pp : List RawPerson) (tt : List RawTrip) :
    (srv_to_standard T (hh, pp, tt)).1.map Household.hh_id =
      hh.map (fun h => toString (pyInt h.HHNR)) ∧
    (srv_to_standard T (hh, pp, tt)).1.length = hh.length ∧
    (srv_to_standard T (hh, pp, tt)).2.1.length = pp.length ∧
    (srv_to_standard T (hh, pp, tt)).2.2.length = tt.length := by
  refine ⟨?_, ?_, ?_, ?_⟩ <;>
    simp [srv_to_standard, List.map_map, Function.comp, srvHousehold]

/-- C5 counterexample: with all three tables nonempty, a person row whose
`HHNR` (5) matches no household row (the only one has `HHNR` 1) yields a
Person whose household identifier equals no household's id, and the run
returns it — no post hoc referential-integrity check exists. -/
theorem C5_counterexample_dangling_reference :
    (srv_to_standard constT ([rawHH1], [rawP5], [rawT1])).2.1.map Person.hh =
      [toString (pyInt rawP5.HHNR)] ∧
    (srv_to_standard constT ([rawHH1], [rawP5], [rawT1])).1.map Household.hh_id =
      [toString (pyInt rawHH1.HHNR)] ∧
    toString (pyInt rawP5.HHNR) ≠ toString (pyInt rawHH1.HHNR) := by
  refine ⟨rfl, rfl, ?_⟩
  have h5 : pyInt rawP5.HHNR = 5 := by norm_num [pyInt, rawP5, rawP1]
  have h1 : pyInt rawHH1.HHNR = 1 := by norm_num [pyInt, rawHH1]
  rw [h5, h1]
  decide

/-- C5 amended: the normalizer never checks referential integrity; it
holds in the output exactly when the raw tables already satisfy it: if
every person row's truncated `HHNR` occurs among the household rows, and
every trip row's `(HHNR, PNR)` occurs among the person rows, then every
output Person references an output Household and every output Trip
references an output Person. -/
theorem C5_amended_integrity_from_raw_tables (T : SrV2018)
    (hh : List RawHousehold) (pp : List RawPerson) (tt : List RawTrip)
    (hp : ∀ p ∈ pp, ∃ h ∈ hh, pyInt p.HHNR = pyInt h.HHNR)
    (ht : ∀ t ∈ tt, ∃ p ∈ pp, pyInt t.HHNR = pyInt p.HHNR ∧ pyInt t.PNR = pyInt p.PNR) :
    (∀ q ∈ (srv_to_standard T (hh, pp, tt)).2.1,
        ∃ g ∈ (srv_to_standard T (hh, pp, tt)).1, q.hh = g.hh_id) ∧
    (∀ tr ∈ (srv_to_standard T (hh, pp, tt)).2.2,
        ∃ q ∈ (srv_to_standard T (hh, pp, tt)).2.1, tr.p_id = q.p_id) := by
  constructor
  · intro q hq
    simp only [srv_to_standard, List.mem_map] at hq
    obtain ⟨p, hpmem, rfl⟩ := hq
    obtain ⟨h, hhm, heq⟩ := hp p hpmem
    refine ⟨srvHousehold T (pp.map (srvPerson T)) h, ?_, ?_⟩
    · simp only [srv_to_standard, List.mem_map]
      exact ⟨h, hhm, rfl⟩
    · simp [srvPerson, srvHousehold, heq]
  · intro tr htr
    simp only [srv_to_standard, List.mem_map] at htr
    obtain ⟨t, htm, rfl⟩ := htr
    obtain ⟨p, hpm, h1, h2⟩ := ht t htm
    refine ⟨srvPerson T p, ?_, ?_⟩
    · simp only [srv_to_standard, List.mem_map]
      exact ⟨p, hpm, rfl⟩
    · simp [srvTrip, srvPerson, h1, h2]

/-- Witness for the amended C5 on a one-row-per-table input. -/
theorem C5_amended_integrity_from_raw_tables_witness :
    (∀ q ∈ (srv_to_standard constT ([rawHH1], [rawP1], [rawT1])).2.1,
        ∃ g ∈ (srv_to_standard constT ([rawHH1], [rawP1], [rawT1])).1, q.hh = g.hh_id) ∧
    (∀ tr ∈ (srv_to_standard constT ([rawHH1], [rawP1], [rawT1])).2.2,
        ∃ q ∈ (srv_to_standard constT ([rawHH1], [rawP1], [rawT1])).2.1, tr.p_id = q.p_id) :=
  C5_amended_integrity_from_raw_tables constT [rawHH1] [rawP1] [rawT1]
    (by intro p hp; refine ⟨rawHH1, by simp, ?_⟩; simp at hp; rw [hp]; exact rfl)
    (by intro t htt; refine ⟨rawP1, by simp, ?_⟩; simp at htt; rw [htt]; exact ⟨rfl, rfl⟩)

/-- C6: the normalizer is a pure function of its input — two runs on
equal raw tables return equal collections, component by component; the
embedding of `srv_to_standard` as a total function reflects that the
source mutates none of its input frames. -/
theorem C6_deterministic_pure (T : SrV2018)
    (d1 d2 : List RawHousehold × List RawPerson × List RawTrip) (h : d1 = d2) :
    (srv_to_standard T d1).1 = (srv_to_standard T d2).1 ∧
    (srv_to_standard T d1).2.1 = (srv_to_standard T d2).2.1 ∧
    (srv_to_standard T d1).2.2 = (srv_to_standard T d2).2.2 := by
  subst h; exact ⟨rfl, rfl, rfl⟩

/-- Witness for C6 on a concrete one-row input. -/
theorem C6_deterministic_pure_witness :
    (srv_to_standard constT ([rawHH1], [rawP1], [rawT1])).1 =
      (srv_to_standard constT ([rawHH1], [rawP1], [rawT1])).1 ∧
    (srv_to_standard constT ([rawHH1], [rawP1], [rawT1])).2.1 =
      (srv_to_standard constT ([rawHH1], [rawP1], [rawT1])).2.1 ∧
    (srv_to_standard constT ([rawHH1], [rawP1], [rawT1])).2.2 =
      (srv_to_standard constT ([rawHH1], [rawP1], [rawT1])).2.2 :=
  C6_deterministic_pure constT ([rawHH1], [rawP1], [rawT1]) ([rawHH1], [rawP1], [rawT1]) rfl

/-- C8: every output household's economic status is the translator applied
to the raw income code and exactly the produced Person records whose
household identifier matches; person collections agreeing on that subset
give the same status. -/
theorem C8_economic_status_uses_household_subset :
    (∀ (T : SrV2018) (hh : List RawHousehold) (pp : List RawPerson)
        (tt : List RawTrip), ∀ g ∈ (srv_to_standard T (hh, pp, tt)).1,
        ∃ h ∈ hh, g.hh_id = toString (pyInt h.HHNR) ∧
          g.economic_status = T.economic_status h.V_EINK
            ((srv_to_standard T (hh, pp, tt)).2.1.filter
              (fun q => q.hh == toString (pyInt h.HHNR)))) ∧
    (∀ (T : SrV2018) (h : RawHousehold) (ps1 ps2 : List Person),
        ps1.filter (fun q => q.hh == toString (pyInt h.HHNR)) =
          ps2.filter (fun q => q.hh == toString (pyInt h.HHNR)) →
        (srvHousehold T ps1 h).economic_status =
          (srvHousehold T ps2 h).economic_status) := by
  constructor
  · intro T hh pp tt g hg
    simp only [srv_to_standard, List.mem_map] at hg
    obtain ⟨h, hhm, rfl⟩ := hg
    exact ⟨h, hhm, rfl, rfl⟩
  · intro T h ps1 ps2 hfil
    simp only [srvHousehold]
    rw [hfil]

/-- Witness for C8 on a concrete input: the subset-invariance conjunct at
two person lists with the same matching subset, via the first conjunct. -/
theorem C8_economic_status_uses_household_subset_witness :
    (∃ h ∈ [rawHH1],
        (srvHousehold constT ([rawP1].map (srvPerson constT)) rawHH1).hh_id =
          toString (pyInt h.HHNR) ∧
        (srvHousehold constT ([rawP1].map (srvPerson constT)) rawHH1).economic_status =
          constT.economic_status h.V_EINK
            ((srv_to_standard constT ([rawHH1], [rawP1], [])).2.1.filter
              (fun q => q.hh == toString (pyInt h.HHNR)))) ∧
    (srvHousehold constT ([] : List Person) rawHH1).economic_status =
      (srvHousehold constT ([] : List Person) rawHH1).economic_status :=
  ⟨C8_economic_status_uses_household_subset.1 constT [rawHH1] [rawP1] []
      (srvHousehold constT ([rawP1].map (srvPerson constT)) rawHH1) (by simp [srv_to_standard]),
   C8_economic_status_uses_household_subset.2 constT rawHH1 [] [] rfl⟩

/-- C9: derived bike availability is an OR over the bike and e-bike raw
codes — YES when either translates to YES, otherwise the translation of
the plain bike code. -/
theorem C9_bike_avail_or_over_yes :
    (∀ (T : SrV2018) (p : RawPerson),
        T.veh_avail p.V_RAD_VERFUEG = Availability.YES ∨
          T.veh_avail p.V_ERAD_VERFUEG = Availability.YES →
        (srvPerson T p).bike_avail = Availability.YES) ∧
    (∀ (T : SrV2018) (p : RawPerson),
        T.veh_avail p.V_RAD_VERFUEG ≠ Availability.YES →
        T.veh_avail p.V_ERAD_VERFUEG ≠ Availability.YES →
        (srvPerson T p).bike_avail = T.veh_avail p.V_RAD_VERFUEG) := by
  constructor
  · intro T p h
    simp only [srvPerson]
    rw [if_pos h]
  · intro T p h1 h2
    simp only [srvPerson]
    rw [if_neg (by rintro (hc | hc) <;> [exact h1 hc; exact h2 hc])]

/-- Witness for C9: an always-YES translator hits the YES branch, the
constant-UNKNOWN translator hits the fallback branch. -/
theorem C9_bike_avail_or_over_yes_witness :
    (srvPerson yesT rawP1).bike_avail = Availability.YES ∧
    (srvPerson constT rawP1).bike_avail = constT.veh_avail rawP1.V_RAD_VERFUEG :=
  ⟨C9_bike_avail_or_over_yes.1 yesT rawP1 (Or.inl rfl),
   C9_bike_avail_or_over_yes.2 constT rawP1 (by decide) (by decide)⟩
